import Mathlib

/-!
Shallow embedding of the todo-web backend's task router
(src/backend/app/routers/tasks.py), the auth dependencies
(src/backend/app/dependencies.py) and the recurrence-pattern check
constraints (src/backend/alembic/versions/004_phase5_event_driven.py),
together with proofs about the event-emission behaviour of the CRUD
endpoints.

Modelling conventions:
- `datetime` values are `Nat` timestamps; each request carries a single
  `now` standing for every `datetime.utcnow()` call made during it.
- The JSONB `reminder_config` is an association list from string keys to
  JSON arrays of strings (the only value shape the code ever reads: the
  `channels` key).  Python dict falsiness (`if not reminder_config`) is
  `none` or the empty list.
- The event publisher lives outside this repository (app/events is not in
  the tree); each `await publisher.publish_*` call either returns or
  raises, which we model by an oracle `Nat → Bool` indexed by the position
  of the publish call inside the request.  Every publish in the router is
  wrapped in try/except, so a failure is logged and control continues;
  the result records each *attempted* event together with the oracle's
  verdict for that call.
-/

namespace Todo

/-- Task priority levels (`PriorityEnum` in app/models.py). -/
inductive Priority where
  | low
  | medium
  | high
deriving DecidableEq, Repr

/-- A JSONB `reminder_config` document: keys mapped to arrays of strings
(the shape used at every call site, e.g. a `channels` key holding a
channel list). -/
abbrev ReminderConfig := List (String × List String)

/-- The `Task` row (app/models.py `Task`); timestamps are `Nat`. -/
structure Task where
  id : Nat
  user_id : Nat
  title : String
  description : String
  priority : Priority
  is_complete : Bool
  created_at : Nat
  updated_at : Nat
  reminder_time : Option Nat
  reminder_config : Option ReminderConfig
deriving DecidableEq, Repr

/-- `TaskCreate` request schema (app/schemas.py), with its defaults. -/
structure TaskCreate where
  title : String
  description : String := ""
  priority : Priority := .medium
  reminder_time : Option Nat := none
  reminder_config : Option ReminderConfig := none
deriving DecidableEq, Repr

/-- `TaskUpdate` request schema (app/schemas.py).  The outer `Option` is
pydantic field presence: `model_dump(exclude_unset=True)` keeps exactly
the fields a client submitted.  `reminder_time` and `reminder_config` are
nullable, so a submitted value is itself an `Option`. -/
structure TaskUpdate where
  title : Option String := none
  description : Option String := none
  priority : Option Priority := none
  reminder_time : Option (Option Nat) := none
  reminder_config : Option (Option ReminderConfig) := none
deriving DecidableEq, Repr

/-- A field value as stored in the `changes` / `previous_values` dicts of
a `task.updated` event payload. -/
inductive FVal where
  | s (v : String)
  | b (v : Bool)
  | p (v : Priority)
  | t (v : Option Nat)
  | c (v : Option ReminderConfig)
deriving DecidableEq, Repr

/-- `_get_notification_channels` (tasks.py lines 43-54): returns
`["email"]` when `reminder_config` is falsy (None or the empty dict),
otherwise `reminder_config.get("channels", ["email"])`. -/
def getNotificationChannels (reminder_config : Option ReminderConfig) : List String :=
  match reminder_config with
  | none => ["email"]
  | some cfg =>
    if cfg.isEmpty then ["email"]
    else
      match cfg.lookup "channels" with
      | some v => v
      | none => ["email"]

/-- State threaded through the update loop of `update_task`
(tasks.py lines 174-184): the task being mutated in place, plus the
`changes` and `previous_values` dicts (insertion-ordered). -/
structure DiffState where
  task : Task
  changes : List (String × FVal)
  previous_values : List (String × FVal)
deriving DecidableEq, Repr

/-- One iteration of the `for key, value in update_data.items()` loop:
skip an unsubmitted field; for a submitted one, when the stored value
differs record new/old values and `setattr` the task. -/
def diffStep (st : DiffState) (submitted : Option FVal) (key : String)
    (old : FVal) (set : Task → Task) : DiffState :=
  match submitted with
  | none => st
  | some v =>
    if old = v then st
    else
      { task := set st.task,
        changes := st.changes ++ [(key, v)],
        previous_values := st.previous_values ++ [(key, old)] }

/-- The whole update loop, in pydantic field-declaration order (the order
of `update_data.items()`): title, description, priority, reminder_time,
reminder_config. -/
def applyUpdateData (t : Task) (u : TaskUpdate) : DiffState :=
  let s0 : DiffState := { task := t, changes := [], previous_values := [] }
  let s1 := diffStep s0 (u.title.map .s) "title" (.s t.title)
    (fun tk => { tk with title := (u.title.getD tk.title) })
  let s2 := diffStep s1 (u.description.map .s) "description" (.s t.description)
    (fun tk => { tk with description := (u.description.getD tk.description) })
  let s3 := diffStep s2 (u.priority.map .p) "priority" (.p t.priority)
    (fun tk => { tk with priority := (u.priority.getD tk.priority) })
  let s4 := diffStep s3 (u.reminder_time.map .t) "reminder_time" (.t t.reminder_time)
    (fun tk => { tk with reminder_time := (u.reminder_time.getD tk.reminder_time) })
  let s5 := diffStep s4 (u.reminder_config.map .c) "reminder_config" (.c t.reminder_config)
    (fun tk => { tk with reminder_config := (u.reminder_config.getD tk.reminder_config) })
  s5

/-- The expected `changes` dict computed from the pre-update and
post-update rows: for each updatable field, in loop order, the new value
when the field differs. -/
def fieldDiffNew (t t2 : Task) : List (String × FVal) :=
  (if t.title ≠ t2.title then [("title", FVal.s t2.title)] else []) ++
  (if t.description ≠ t2.description then [("description", FVal.s t2.description)] else []) ++
  (if t.priority ≠ t2.priority then [("priority", FVal.p t2.priority)] else []) ++
  (if t.reminder_time ≠ t2.reminder_time then [("reminder_time", FVal.t t2.reminder_time)] else []) ++
  (if t.reminder_config ≠ t2.reminder_config then [("reminder_config", FVal.c t2.reminder_config)] else [])

/-- The expected `previous_values` dict: old values of the differing
updatable fields, in the same order. -/
def fieldDiffOld (t t2 : Task) : List (String × FVal) :=
  (if t.title ≠ t2.title then [("title", FVal.s t.title)] else []) ++
  (if t.description ≠ t2.description then [("description", FVal.s t.description)] else []) ++
  (if t.priority ≠ t2.priority then [("priority", FVal.p t.priority)] else []) ++
  (if t.reminder_time ≠ t2.reminder_time then [("reminder_time", FVal.t t.reminder_time)] else []) ++
  (if t.reminder_config ≠ t2.reminder_config then [("reminder_config", FVal.c t.reminder_config)] else [])

/-- A domain event, as constructed at the publish call sites of
tasks.py (the app/events schemas are not in the tree; the payload fields
are exactly the keyword arguments passed to the event constructors). -/
inductive Event where
  | taskCreated (task_id user_id : Nat) (title description : String) (priority : Priority)
  | taskUpdated (task_id user_id : Nat)
      (changes previous_values : List (String × FVal))
  | taskDeleted (task_id user_id : Nat) (title : String) (was_complete : Bool)
  | reminderScheduled (task_id user_id : Nat) (scheduled_time : Nat)
      (notification_channels : List String)
  | reminderCancelled (task_id user_id : Nat) (reason : String) (cancelled_at : Nat)
deriving DecidableEq, Repr

/-- Is this a reminder-domain event (published via
`publisher.publish_reminder_event`)? -/
def Event.isReminderEvent : Event → Bool
  | .reminderScheduled _ _ _ _ => true
  | .reminderCancelled _ _ _ _ => true
  | _ => false

/-- Is this a `task.updated` event? -/
def Event.isTaskUpdated : Event → Bool
  | .taskUpdated _ _ _ _ => true
  | _ => false

/-- The outcome of one task-router request: HTTP status, the response
body (a task for 200/201, nothing for 204), the error detail for 4xx,
the database after the request, and the publish attempts made, each
paired with the oracle's verdict (true = the publish call returned,
false = it raised and was caught and logged). -/
structure ReqResult where
  status : Nat
  body : Option Task
  detail : Option String
  db : List Task
  events : List (Event × Bool)
deriving DecidableEq, Repr

/-- Pair each attempted publish with the oracle verdict for its
position, counting from `i`. -/
def markEventsFrom (oracle : Nat → Bool) (i : Nat) : List Event → List (Event × Bool)
  | [] => []
  | e :: es => (e, oracle i) :: markEventsFrom oracle (i + 1) es

/-- Pair each attempted publish with the oracle verdict for its position
in the request. -/
def markEvents (oracle : Nat → Bool) (es : List Event) : List (Event × Bool) :=
  markEventsFrom oracle 0 es

/-- `session.get(Task, task_id)`: primary-key lookup. -/
def dbGet (db : List Task) (task_id : Nat) : Option Task :=
  db.find? (fun t => t.id = task_id)

/-- Persisting a mutated task row: replace the row with that id. -/
def dbPut (db : List Task) (t : Task) : List Task :=
  db.map (fun x => if x.id = t.id then t else x)

/-- `POST /tasks/` (`create_task`, tasks.py lines 72-140): insert the
task, then best-effort publish `task.created`, then, when
`reminder_time` is set, best-effort publish `reminder.scheduled` with
channels from `_get_notification_channels(task.reminder_config)`. -/
def createTask (current_user : Nat) (task_data : TaskCreate) (db : List Task)
    (now newId : Nat) (oracle : Nat → Bool) : ReqResult :=
  let task : Task :=
    { id := newId, user_id := current_user,
      title := task_data.title, description := task_data.description,
      priority := task_data.priority, is_complete := false,
      created_at := now, updated_at := now,
      reminder_time := task_data.reminder_time,
      reminder_config := task_data.reminder_config }
  let evs : List Event :=
    [.taskCreated task.id task.user_id task.title task.description task.priority] ++
    (match task.reminder_time with
     | some rt =>
       [.reminderScheduled task.id task.user_id rt
          (getNotificationChannels task.reminder_config)]
     | none => [])
  { status := 201, body := some task, detail := none,
    db := db ++ [task], events := markEvents oracle evs }

/-- The events attempted by a successful `update_task` after the commit:
`task.updated` when the diff is non-empty (lines 190-212), then the
reminder-transition events (lines 214-265). -/
def updateTaskEvents (t2 : Task) (st : DiffState)
    (previous_reminder_time : Option Nat) (now : Nat) : List Event :=
  (if st.changes.isEmpty then []
   else [.taskUpdated t2.id t2.user_id st.changes st.previous_values]) ++
  (if (st.changes.map Prod.fst).contains "reminder_time" then
     if previous_reminder_time.isSome && t2.reminder_time.isNone then
       [.reminderCancelled t2.id t2.user_id "reminder_removed" now]
     else
       match t2.reminder_time with
       | some rt =>
         [.reminderScheduled t2.id t2.user_id rt
            (getNotificationChannels t2.reminder_config)]
       | none => []
   else [])

/-- `PUT /tasks/{task_id}` (`update_task`, tasks.py lines 143-267):
404 when the task does not exist, 403 when it belongs to another user;
otherwise run the field-diff loop, always set `updated_at` and persist,
then best-effort publish the update / reminder events. -/
def updateTask (task_id : Nat) (task_data : TaskUpdate) (current_user : Nat)
    (db : List Task) (now : Nat) (oracle : Nat → Bool) : ReqResult :=
  match dbGet db task_id with
  | none =>
    { status := 404, body := none, detail := some "Task not found",
      db := db, events := [] }
  | some task =>
    if task.user_id ≠ current_user then
      { status := 403, body := none,
        detail := some "Not authorized to update this task",
        db := db, events := [] }
    else
      let previous_reminder_time := task.reminder_time
      let st := applyUpdateData task task_data
      let t2 : Task := { st.task with updated_at := now }
      { status := 200, body := some t2, detail := none,
        db := dbPut db t2,
        events := markEvents oracle
          (updateTaskEvents t2 st previous_reminder_time now) }

/-- `PATCH /tasks/{task_id}/toggle` (`toggle_task`, tasks.py lines
270-327): flip `is_complete`, set `updated_at`, persist, then
best-effort publish a `task.updated` event whose `changes` /
`previous_values` carry only `is_complete`. -/
def toggleTask (task_id : Nat) (current_user : Nat) (db : List Task)
    (now : Nat) (oracle : Nat → Bool) : ReqResult :=
  match dbGet db task_id with
  | none =>
    { status := 404, body := none, detail := some "Task not found",
      db := db, events := [] }
  | some task =>
    if task.user_id ≠ current_user then
      { status := 403, body := none,
        detail := some "Not authorized to update this task",
        db := db, events := [] }
    else
      let previous_is_complete := task.is_complete
      let t2 : Task := { task with is_complete := !task.is_complete, updated_at := now }
      { status := 200, body := some t2, detail := none,
        db := dbPut db t2,
        events := markEvents oracle
          [.taskUpdated t2.id t2.user_id
            [("is_complete", FVal.b t2.is_complete)]
            [("is_complete", FVal.b previous_is_complete)]] }

/-- `DELETE /tasks/{task_id}` (`delete_task`, tasks.py lines 330-414):
404 / 403 checks, capture the event payload fields, delete and commit,
then best-effort publish `task.deleted` and — in a separate try/except,
when the task had a reminder — `reminder.cancelled` with reason
`task_deleted`. -/
def deleteTask (task_id : Nat) (current_user : Nat) (db : List Task)
    (now : Nat) (oracle : Nat → Bool) : ReqResult :=
  match dbGet db task_id with
  | none =>
    { status := 404, body := none, detail := some "Task not found",
      db := db, events := [] }
  | some task =>
    if task.user_id ≠ current_user then
      { status := 403, body := none,
        detail := some "Not authorized to delete this task",
        db := db, events := [] }
    else
      let had_reminder := task.reminder_time.isSome
      let evs : List Event :=
        [.taskDeleted task.id task.user_id task.title task.is_complete] ++
        (if had_reminder then
          [.reminderCancelled task.id task.user_id "task_deleted" now]
         else [])
      { status := 204, body := none, detail := none,
        db := db.filter (fun x => x.id ≠ task.id),
        events := markEvents oracle evs }

/-- The columns of the `recurrence_patterns` table that the T-505 check
constraints mention (migration 004_phase5_event_driven.py, lines
108-132); the unconstrained columns (template, days, timezone,
watermark, timestamps) do not affect write acceptance. -/
structure RecurrencePatternRow where
  frequency : String
  interval : Int
  end_date : Option Nat
  max_occurrences : Option Int
deriving DecidableEq, Repr

/-- Write-time acceptance of a `recurrence_patterns` row: the
conjunction of the three check constraints installed by migration 004
(T-505): `ck_recurrence_frequency`, `ck_recurrence_interval_positive`,
`ck_recurrence_end_condition`. -/
def recurrenceWriteAccepted (r : RecurrencePatternRow) : Bool :=
  (r.frequency == "daily" || r.frequency == "weekly" || r.frequency == "monthly" ||
    r.frequency == "yearly" || r.frequency == "custom") &&
  (0 < r.interval) &&
  (r.end_date.isNone || r.max_occurrences.isNone)

/-- The `users` row (app/models.py `User`). -/
structure User where
  id : Nat
  email : String
  hashed_password : String
  created_at : Nat
deriving DecidableEq, Repr

/-- A decoded JWT claim set; the dependencies only read the integer
`user_id` claim. -/
abbrev JwtPayload := List (String × Int)

/-- `session.get(User, uid)`: primary-key lookup in the users table. -/
def sessionGetUser (users : List User) (uid : Int) : Option User :=
  users.find? (fun u => (u.id : Int) = uid)

/-- Python `str.lower()` on the ASCII environment names used here:
lowercase each character.  (`String.toLower` itself is defined by
well-founded recursion, which the kernel cannot evaluate.) -/
def pyLower (s : String) : String := ⟨s.data.map Char.toLower⟩

/-- `get_current_user` (app/dependencies.py lines 12-44).  `decode`
stands for `decode_jwt`.  Python truthiness is modelled exactly: a
missing or empty cookie, a failed decode or an empty payload, and a
missing or zero `user_id` claim are all rejected with 401. -/
def getCurrentUser (access_token : Option String)
    (decode : String → Option JwtPayload) (users : List User) :
    Except (Nat × String) User :=
  match access_token with
  | none => .error (401, "Not authenticated")
  | some tok =>
    if tok = "" then .error (401, "Not authenticated")
    else
      match decode tok with
      | none => .error (401, "Invalid token")
      | some payload =>
        if payload.isEmpty then .error (401, "Invalid token")
        else
          match payload.lookup "user_id" with
          | none => .error (401, "Invalid token payload")
          | some uid =>
            if uid = 0 then .error (401, "Invalid token payload")
            else
              match sessionGetUser users uid with
              | none => .error (401, "User not found")
              | some user => .ok user

/-- `get_dev_or_current_user` (app/dependencies.py lines 50-117).  The
environment is `os.getenv("ENVIRONMENT", "production").lower()`.  In the
development branch the fixed dev user (id 1) is fetched, or created when
absent (`hashPw` stands for `hash_password`; the database assigns
`newId` and `created_at := now`; the stray `name` keyword in the source
has no column on `User`).  The production branch is the source's literal
copy of the `get_current_user` body; the result also carries the users
table, which only the dev branch can extend. -/
def getDevOrCurrentUser (envVar : Option String) (access_token : Option String)
    (decode : String → Option JwtPayload) (users : List User)
    (hashPw : String → String) (newId now : Nat) :
    Except (Nat × String) (User × List User) :=
  let environment := pyLower (envVar.getD "production")
  if environment = "development" then
    match sessionGetUser users 1 with
    | some dev_user => .ok (dev_user, users)
    | none =>
      let dev_user : User :=
        { id := newId, email := "dev@local.test",
          hashed_password := hashPw "dev123", created_at := now }
      .ok (dev_user, users ++ [dev_user])
  else
    match access_token with
    | none => .error (401, "Not authenticated")
    | some tok =>
      if tok = "" then .error (401, "Not authenticated")
      else
        match decode tok with
        | none => .error (401, "Invalid token")
        | some payload =>
          if payload.isEmpty then .error (401, "Invalid token")
          else
            match payload.lookup "user_id" with
            | none => .error (401, "Invalid token payload")
            | some uid =>
              if uid = 0 then .error (401, "Invalid token payload")
              else
                match sessionGetUser users uid with
                | none => .error (401, "User not found")
                | some user => .ok (user, users)

/-- The view of a request outcome the client and the database see: HTTP
status, response body, error detail, and the database after the request
— everything except the publish attempts. -/
def requestView (r : ReqResult) : Nat × Option Task × Option String × List Task :=
  (r.status, r.body, r.detail, r.db)

/-- A concrete stored task used in concrete scenarios. -/
def baseTask : Task :=
  { id := 1, user_id := 7, title := "a", description := "",
    priority := .medium, is_complete := false, created_at := 0,
    updated_at := 0, reminder_time := none, reminder_config := none }

/-- A concrete create payload: a reminder at time 3 whose config stores
an empty `channels` list. -/
def emptyChannelsCreate : TaskCreate :=
  { title := "a", reminder_time := some 3,
    reminder_config := some [("channels", [])] }

/-- A concrete stored task with a reminder set. -/
def reminderTask : Task := { baseTask with reminder_time := some 10 }

/-- An update request that submits no field. -/
def emptyUpdate : TaskUpdate := {}

/-- An update request changing only the title. -/
def titleUpdate : TaskUpdate := { title := some "b" }

/-- An update request resubmitting the stored title unchanged. -/
def sameTitleUpdate : TaskUpdate := { title := some "a" }

/-- An update request explicitly clearing the reminder. -/
def clearReminderUpdate : TaskUpdate := { reminder_time := some none }

/-- A create payload with a reminder time and no reminder config. -/
def plainReminderCreate : TaskCreate := { title := "x", reminder_time := some 4 }

/-- The task produced by the update loop: each submitted field takes the
submitted value, every other column keeps its stored value. -/
theorem applyUpdateData_task (t : Task) (u : TaskUpdate) :
    (applyUpdateData t u).task =
      { t with title := u.title.getD t.title,
               description := u.description.getD t.description,
               priority := u.priority.getD t.priority,
               reminder_time := u.reminder_time.getD t.reminder_time,
               reminder_config := u.reminder_config.getD t.reminder_config } := by
  rcases t with ⟨tid, tuid, ttl, tds, tpr, tic, tca, tua, trt, trc⟩
  rcases u with ⟨ot, od, op, ort, oc⟩
  cases ot <;> cases od <;> cases op <;> cases ort <;> cases oc <;>
    simp [applyUpdateData, diffStep] <;> split_ifs <;> simp_all

set_option maxHeartbeats 1600000 in
/-- The `changes` dict produced by the update loop is exactly the
per-field diff (new values) between the pre-update row and the
post-update row, in loop order. -/
theorem applyUpdateData_changes (t : Task) (u : TaskUpdate) :
    (applyUpdateData t u).changes = fieldDiffNew t (applyUpdateData t u).task := by
  rw [applyUpdateData_task]
  rcases t with ⟨tid, tuid, ttl, tds, tpr, tic, tca, tua, trt, trc⟩
  rcases u with ⟨ot, od, op, ort, oc⟩
  cases ot <;> cases od <;> cases op <;> cases ort <;> cases oc <;>
    simp [applyUpdateData, diffStep, fieldDiffNew] <;>
    split_ifs <;> simp_all

set_option maxHeartbeats 1600000 in
/-- The `previous_values` dict produced by the update loop is exactly
the per-field diff (old values) between the pre-update row and the
post-update row, in loop order. -/
theorem applyUpdateData_prev (t : Task) (u : TaskUpdate) :
    (applyUpdateData t u).previous_values = fieldDiffOld t (applyUpdateData t u).task := by
  rw [applyUpdateData_task]
  rcases t with ⟨tid, tuid, ttl, tds, tpr, tic, tca, tua, trt, trc⟩
  rcases u with ⟨ot, od, op, ort, oc⟩
  cases ot <;> cases od <;> cases op <;> cases ort <;> cases oc <;>
    simp [applyUpdateData, diffStep, fieldDiffOld] <;>
    split_ifs <;> simp_all

/-- Marked attempts project back to the raw event list, for any oracle
and starting index. -/
theorem markEventsFrom_fst (oracle : Nat → Bool) (i : Nat) (es : List Event) :
    (markEventsFrom oracle i es).map Prod.fst = es := by
  induction es generalizing i with
  | nil => rfl
  | cons e es ih => simp [markEventsFrom, ih]

/-- The attempted publishes are the raw event list, for any oracle. -/
theorem markEvents_fst (oracle : Nat → Bool) (es : List Event) :
    (markEvents oracle es).map Prod.fst = es :=
  markEventsFrom_fst oracle 0 es

/-- Persisting a row with the id of an existing row makes the lookup of
that id return the new row. -/
theorem dbGet_dbPut (db : List Task) (t2 : Task)
    (h : dbGet db t2.id ≠ none) :
    dbGet (dbPut db t2) t2.id = some t2 := by
  induction db with
  | nil => simp [dbGet] at h
  | cons x xs ih =>
    by_cases hx : x.id = t2.id
    · simp [dbGet, dbPut, hx]
    · have h' : dbGet xs t2.id ≠ none := by
        simpa [dbGet, List.find?, hx] using h
      simpa [dbGet, dbPut, List.find?, hx] using ih h'

/-- C8: a `recurrence_patterns` row is accepted at write time only
when `interval` is strictly positive, `frequency` is one of the five
supported values, and at most one of `end_date` / `max_occurrences` is
set; a row with both end conditions, or with a non-positive interval,
is rejected by the check constraints. -/
theorem c8_recurrence_constraints (r : RecurrencePatternRow) :
    (recurrenceWriteAccepted r = true →
      0 < r.interval ∧
      (r.frequency = "daily" ∨ r.frequency = "weekly" ∨ r.frequency = "monthly" ∨
        r.frequency = "yearly" ∨ r.frequency = "custom") ∧
      ¬(r.end_date.isSome = true ∧ r.max_occurrences.isSome = true)) ∧
    (r.end_date.isSome = true → r.max_occurrences.isSome = true →
      recurrenceWriteAccepted r = false) ∧
    (r.interval ≤ 0 → recurrenceWriteAccepted r = false) := by
  obtain ⟨f, i, ed, mo⟩ := r
  refine ⟨fun h => ?_, fun h1 h2 => ?_, fun h => ?_⟩
  · simp only [recurrenceWriteAccepted, Bool.and_eq_true, Bool.or_eq_true, beq_iff_eq,
      decide_eq_true_eq] at h
    obtain ⟨⟨hf, hi⟩, he⟩ := h
    refine ⟨hi, by tauto, ?_⟩
    rintro ⟨hed, hmo⟩
    rcases he with h2 | h2 <;> simp_all
  · cases ed <;> cases mo <;> simp_all [recurrenceWriteAccepted]
  · have hfalse : decide (0 < i) = false := decide_eq_false (not_lt.mpr h)
    simp [recurrenceWriteAccepted, hfalse]

/-- Witness for C8 at a concrete accepted row. -/
theorem c8_recurrence_constraints_witness :
    0 < (⟨"daily", 2, some 3, none⟩ : RecurrencePatternRow).interval ∧
    ((⟨"daily", 2, some 3, none⟩ : RecurrencePatternRow).frequency = "daily" ∨
      (⟨"daily", 2, some 3, none⟩ : RecurrencePatternRow).frequency = "weekly" ∨
      (⟨"daily", 2, some 3, none⟩ : RecurrencePatternRow).frequency = "monthly" ∨
      (⟨"daily", 2, some 3, none⟩ : RecurrencePatternRow).frequency = "yearly" ∨
      (⟨"daily", 2, some 3, none⟩ : RecurrencePatternRow).frequency = "custom") ∧
    ¬((⟨"daily", 2, some 3, none⟩ : RecurrencePatternRow).end_date.isSome = true ∧
      (⟨"daily", 2, some 3, none⟩ : RecurrencePatternRow).max_occurrences.isSome = true) :=
  (c8_recurrence_constraints ⟨"daily", 2, some 3, none⟩).1 (by decide)

/-- C9: when the ENVIRONMENT variable is unset or, lowercased, is
anything but "development", the dev-bypass dependency returns exactly
what `get_current_user` returns (with the users table untouched); and a
successful `get_current_user` resolves to a user that exists in the
table. -/
theorem c9_dev_bypass_inert (envVar access_token : Option String)
    (decode : String → Option JwtPayload) (users : List User)
    (hashPw : String → String) (newId now : Nat)
    (henv : pyLower (envVar.getD "production") ≠ "development") :
    getDevOrCurrentUser envVar access_token decode users hashPw newId now =
      (getCurrentUser access_token decode users).map (fun u => (u, users)) ∧
    (∀ u, getCurrentUser access_token decode users = .ok u → u ∈ users) := by
  constructor
  · unfold getDevOrCurrentUser
    rw [if_neg henv]
    cases access_token with
    | none => rfl
    | some tok =>
      simp only [getCurrentUser]
      by_cases h1 : tok = ""
      · simp [h1, Except.map]
      · simp only [if_neg h1]
        cases decode tok with
        | none => rfl
        | some payload =>
          by_cases hp : payload.isEmpty
          · simp [hp, Except.map]
          · simp only [if_neg hp]
            cases payload.lookup "user_id" with
            | none => rfl
            | some uid =>
              by_cases h0 : uid = 0
              · simp [h0, Except.map]
              · simp only [if_neg h0]
                cases sessionGetUser users uid with
                | none => rfl
                | some user => rfl
  · intro u hu
    cases access_token with
    | none => simp [getCurrentUser] at hu
    | some tok =>
      simp only [getCurrentUser] at hu
      by_cases h1 : tok = ""
      · simp [h1] at hu
      · simp only [if_neg h1] at hu
        cases hdec : decode tok with
        | none => simp [hdec] at hu
        | some payload =>
          simp only [hdec] at hu
          by_cases hp : payload.isEmpty
          · simp [hp] at hu
          · simp only [if_neg hp] at hu
            cases hl : payload.lookup "user_id" with
            | none => simp [hl] at hu
            | some uid =>
              simp only [hl] at hu
              by_cases h0 : uid = 0
              · simp [h0] at hu
              · simp only [if_neg h0] at hu
                cases hs : sessionGetUser users uid with
                | none => simp [hs] at hu
                | some user =>
                  simp only [hs, Except.ok.injEq] at hu
                  subst hu
                  exact List.mem_of_find?_eq_some hs

/-- Witness for C9: with ENVIRONMENT=production and no cookie, the
dev-bypass dependency gives the same 401 as `get_current_user`. -/
theorem c9_dev_bypass_inert_witness :
    getDevOrCurrentUser (some "production") none (fun _ => none) [] (fun s => s) 1 0 =
      (getCurrentUser none (fun _ => none) []).map (fun u => (u, [])) :=
  (c9_dev_bypass_inert (some "production") none (fun _ => none) [] (fun s => s) 1 0
    (by decide)).1

/-- C10: the helper `_get_notification_channels` returns the stored `channels`
value verbatim whenever the config is truthy and the key is present —
in particular the empty list — and defaults to `["email"]` exactly when
the config is absent/falsy or lacks the key; consequently a task created
with config `channels = []` emits a `reminder.scheduled` event whose
channel list is empty. -/
theorem c10_channels_verbatim :
    getNotificationChannels (some [("channels", ([] : List String))]) = [] ∧
    (∀ (cfg : ReminderConfig) (v : List String), cfg ≠ [] →
      cfg.lookup "channels" = some v → getNotificationChannels (some cfg) = v) ∧
    getNotificationChannels none = ["email"] ∧
    (∀ cfg : ReminderConfig, cfg.lookup "channels" = none →
      getNotificationChannels (some cfg) = ["email"]) ∧
    ((createTask 7 emptyChannelsCreate [] 0 1 (fun _ => true)).events.map Prod.fst) =
      [.taskCreated 1 7 "a" "" .medium, .reminderScheduled 1 7 3 []] := by
  refine ⟨by decide, ?_, by decide, ?_, by decide⟩
  · intro cfg v hne hl
    cases cfg with
    | nil => exact absurd rfl hne
    | cons kv rest => simp [getNotificationChannels, hl]
  · intro cfg hl
    cases cfg with
    | nil => rfl
    | cons kv rest => simp [getNotificationChannels, hl]

/-- Witness for C10: a non-empty stored channel list is returned as is. -/
theorem c10_channels_verbatim_witness :
    getNotificationChannels (some [("channels", ["push"])]) = ["push"] :=
  c10_channels_verbatim.2.1 [("channels", ["push"])] ["push"] (by decide) (by decide)

/-- C4: deleting an existing owned task with a non-null reminder always
attempts exactly one `reminder.cancelled` event with reason
`task_deleted`, after the `task.deleted` attempt, for every publisher
behaviour (the companion publish may succeed or raise); with a null
reminder no cancellation is attempted. -/
theorem c4_delete_cancels_reminder (db : List Task) (task_id current_user now : Nat)
    (t : Task) (ht : dbGet db task_id = some t) (hown : t.user_id = current_user) :
    (∀ rt, t.reminder_time = some rt → ∀ oracle,
      (deleteTask task_id current_user db now oracle).events.map Prod.fst =
        [.taskDeleted t.id t.user_id t.title t.is_complete,
         .reminderCancelled t.id t.user_id "task_deleted" now]) ∧
    (t.reminder_time = none → ∀ oracle,
      (deleteTask task_id current_user db now oracle).events.map Prod.fst =
        [.taskDeleted t.id t.user_id t.title t.is_complete]) := by
  constructor
  · intro rt hrt oracle
    simp [deleteTask, ht, hown, hrt, markEvents_fst]
  · intro hrt oracle
    simp [deleteTask, ht, hown, hrt, markEvents_fst]

/-- Witness for C4: deleting the concrete reminder-bearing task under an
always-failing publisher still attempts the cancellation event. -/
theorem c4_delete_cancels_reminder_witness :
    (deleteTask 1 7 [reminderTask] 5 (fun _ => false)).events.map Prod.fst =
      [.taskDeleted reminderTask.id reminderTask.user_id reminderTask.title
        reminderTask.is_complete,
       .reminderCancelled reminderTask.id reminderTask.user_id "task_deleted" 5] :=
  (c4_delete_cancels_reminder [reminderTask] 1 7 5 reminderTask (by decide)
    (by decide)).1 10 (by decide) (fun _ => false)

/-- C5: for every behaviour of the event publisher, each task CRUD
operation returns the same status, body, error detail and database state
as it would if every publish succeeded — a publish failure is caught and
logged and never surfaces or rolls anything back. -/
theorem c5_publish_failures_invisible
    (db : List Task) (task_id current_user now newId : Nat)
    (cdata : TaskCreate) (udata : TaskUpdate) (oracle : Nat → Bool) :
    requestView (createTask current_user cdata db now newId oracle) =
      requestView (createTask current_user cdata db now newId (fun _ => true)) ∧
    requestView (updateTask task_id udata current_user db now oracle) =
      requestView (updateTask task_id udata current_user db now (fun _ => true)) ∧
    requestView (toggleTask task_id current_user db now oracle) =
      requestView (toggleTask task_id current_user db now (fun _ => true)) ∧
    requestView (deleteTask task_id current_user db now oracle) =
      requestView (deleteTask task_id current_user db now (fun _ => true)) := by
  refine ⟨rfl, ?_, ?_, ?_⟩ <;>
  · cases h : dbGet db task_id with
    | none => simp [updateTask, toggleTask, deleteTask, h]
    | some t =>
      simp only [updateTask, toggleTask, deleteTask, h]
      split_ifs <;> rfl

/-- C6: update, toggle and delete all return 404 with the store
untouched and no publish attempt when the task id is unknown, and 403
likewise when the task belongs to a different user. -/
theorem c6_notfound_forbidden (db : List Task) (task_id current_user : Nat)
    (udata : TaskUpdate) (now : Nat) (oracle : Nat → Bool) :
    (dbGet db task_id = none →
      updateTask task_id udata current_user db now oracle =
        { status := 404, body := none, detail := some "Task not found",
          db := db, events := [] } ∧
      toggleTask task_id current_user db now oracle =
        { status := 404, body := none, detail := some "Task not found",
          db := db, events := [] } ∧
      deleteTask task_id current_user db now oracle =
        { status := 404, body := none, detail := some "Task not found",
          db := db, events := [] }) ∧
    (∀ t, dbGet db task_id = some t → t.user_id ≠ current_user →
      updateTask task_id udata current_user db now oracle =
        { status := 403, body := none,
          detail := some "Not authorized to update this task",
          db := db, events := [] } ∧
      toggleTask task_id current_user db now oracle =
        { status := 403, body := none,
          detail := some "Not authorized to update this task",
          db := db, events := [] } ∧
      deleteTask task_id current_user db now oracle =
        { status := 403, body := none,
          detail := some "Not authorized to delete this task",
          db := db, events := [] }) := by
  constructor
  · intro h
    refine ⟨?_, ?_, ?_⟩ <;> simp [updateTask, toggleTask, deleteTask, h]
  · intro t ht hne
    refine ⟨?_, ?_, ?_⟩ <;> simp [updateTask, toggleTask, deleteTask, ht, hne]

/-- Witness for C6: an unknown id yields 404 with nothing changed, and a
cross-owner attempt yields 403 with nothing changed. -/
theorem c6_notfound_forbidden_witness :
    (updateTask 2 emptyUpdate 7 [baseTask] 5 (fun _ => true) =
      { status := 404, body := none, detail := some "Task not found",
        db := [baseTask], events := [] } ∧
     toggleTask 2 7 [baseTask] 5 (fun _ => true) =
      { status := 404, body := none, detail := some "Task not found",
        db := [baseTask], events := [] } ∧
     deleteTask 2 7 [baseTask] 5 (fun _ => true) =
      { status := 404, body := none, detail := some "Task not found",
        db := [baseTask], events := [] }) ∧
    (updateTask 1 emptyUpdate 9 [baseTask] 5 (fun _ => true) =
      { status := 403, body := none,
        detail := some "Not authorized to update this task",
        db := [baseTask], events := [] } ∧
     toggleTask 1 9 [baseTask] 5 (fun _ => true) =
      { status := 403, body := none,
        detail := some "Not authorized to update this task",
        db := [baseTask], events := [] } ∧
     deleteTask 1 9 [baseTask] 5 (fun _ => true) =
      { status := 403, body := none,
        detail := some "Not authorized to delete this task",
        db := [baseTask], events := [] }) :=
  ⟨(c6_notfound_forbidden [baseTask] 2 7 emptyUpdate 5 (fun _ => true)).1 (by decide),
   (c6_notfound_forbidden [baseTask] 1 9 emptyUpdate 5 (fun _ => true)).2 baseTask
     (by decide) (by decide)⟩

/-- Shape of a successful `update_task` request. -/
theorem updateTask_found (db : List Task) (task_id current_user now : Nat)
    (u : TaskUpdate) (oracle : Nat → Bool) (t : Task)
    (ht : dbGet db task_id = some t) (hown : t.user_id = current_user) :
    updateTask task_id u current_user db now oracle =
      { status := 200,
        body := some { (applyUpdateData t u).task with updated_at := now },
        detail := none,
        db := dbPut db { (applyUpdateData t u).task with updated_at := now },
        events := markEvents oracle
          (updateTaskEvents { (applyUpdateData t u).task with updated_at := now }
            (applyUpdateData t u) t.reminder_time now) } := by
  simp [updateTask, ht, hown]

/-- A found row carries the looked-up id. -/
theorem dbGet_id (db : List Task) (i : Nat) (t : Task) (h : dbGet db i = some t) :
    t.id = i := by
  unfold dbGet at h
  have h2 := List.find?_some h
  simpa using h2

/-- Refreshing `updated_at` does not affect the five-field diff (new
values). -/
theorem fieldDiffNew_updated_at (t s : Task) (n : Nat) :
    fieldDiffNew t { s with updated_at := n } = fieldDiffNew t s := by
  simp [fieldDiffNew]

/-- Refreshing `updated_at` does not affect the five-field diff (old
values). -/
theorem fieldDiffOld_updated_at (t s : Task) (n : Nat) :
    fieldDiffOld t { s with updated_at := n } = fieldDiffOld t s := by
  simp [fieldDiffOld]

/-- The two diff dicts carry the same keys in the same order. -/
theorem fieldDiff_keys (t s : Task) :
    (fieldDiffNew t s).map Prod.fst = (fieldDiffOld t s).map Prod.fst := by
  unfold fieldDiffNew fieldDiffOld
  split_ifs <;> simp

/-- `reminder_time` is among the changed keys iff the field differs. -/
theorem fieldDiffNew_contains_rt (t s : Task) :
    ((fieldDiffNew t s).map Prod.fst).contains "reminder_time" = true ↔
      t.reminder_time ≠ s.reminder_time := by
  unfold fieldDiffNew
  split_ifs <;> simp_all

/-- The diff is empty iff no updatable field differs. -/
theorem fieldDiffNew_eq_nil (t s : Task) :
    fieldDiffNew t s = [] ↔
      (t.title = s.title ∧ t.description = s.description ∧ t.priority = s.priority ∧
        t.reminder_time = s.reminder_time ∧ t.reminder_config = s.reminder_config) := by
  unfold fieldDiffNew
  split_ifs <;> simp_all

/-- The `task.updated` events among an update's publish attempts. -/
theorem updateTaskEvents_filter_taskUpdated (t2 : Task) (st : DiffState)
    (prev : Option Nat) (now : Nat) :
    (updateTaskEvents t2 st prev now).filter Event.isTaskUpdated =
      (if st.changes.isEmpty then []
       else [.taskUpdated t2.id t2.user_id st.changes st.previous_values]) := by
  unfold updateTaskEvents
  by_cases h1 : st.changes.isEmpty <;>
  by_cases h2 : (st.changes.map Prod.fst).contains "reminder_time" = true <;>
  by_cases h3 : (prev.isSome && t2.reminder_time.isNone) = true <;>
  cases h4 : t2.reminder_time <;>
    simp_all [Event.isTaskUpdated]

/-- The reminder-domain events among an update's publish attempts. -/
theorem updateTaskEvents_filter_reminder (t2 : Task) (st : DiffState)
    (prev : Option Nat) (now : Nat) :
    (updateTaskEvents t2 st prev now).filter Event.isReminderEvent =
      (if (st.changes.map Prod.fst).contains "reminder_time" then
        if prev.isSome && t2.reminder_time.isNone then
          [.reminderCancelled t2.id t2.user_id "reminder_removed" now]
        else
          match t2.reminder_time with
          | some rt =>
            [.reminderScheduled t2.id t2.user_id rt
              (getNotificationChannels t2.reminder_config)]
          | none => []
       else []) := by
  unfold updateTaskEvents
  by_cases h1 : st.changes.isEmpty <;>
  by_cases h2 : (st.changes.map Prod.fst).contains "reminder_time" = true <;>
  by_cases h3 : (prev.isSome && t2.reminder_time.isNone) = true <;>
  cases h4 : t2.reminder_time <;>
    simp_all [Event.isReminderEvent, Event.isTaskUpdated]

/-- C2: on an update of an existing owned task whose submitted
`reminder_time` differs from the stored one, the reminder-domain publish
attempts are exactly: one cancellation with reason `reminder_removed`
(and no scheduling) when going non-null to null; one scheduling when
going null to non-null; one scheduling (and no cancellation) when
changing between distinct non-null values. -/
theorem c2_reminder_transitions (db : List Task) (task_id current_user now : Nat)
    (u : TaskUpdate) (oracle : Nat → Bool) (t : Task) (v : Option Nat)
    (ht : dbGet db task_id = some t) (hown : t.user_id = current_user)
    (hsub : u.reminder_time = some v) (hdiff : v ≠ t.reminder_time) :
    (t.reminder_time ≠ none → v = none →
      ((updateTask task_id u current_user db now oracle).events.map Prod.fst).filter
          Event.isReminderEvent =
        [.reminderCancelled t.id t.user_id "reminder_removed" now]) ∧
    (t.reminder_time = none → ∀ rt, v = some rt →
      ∃ cs, ((updateTask task_id u current_user db now oracle).events.map Prod.fst).filter
          Event.isReminderEvent =
        [.reminderScheduled t.id t.user_id rt cs]) ∧
    (∀ ort rt, t.reminder_time = some ort → v = some rt →
      ∃ cs, ((updateTask task_id u current_user db now oracle).events.map Prod.fst).filter
          Event.isReminderEvent =
        [.reminderScheduled t.id t.user_id rt cs]) := by
  have hfound := updateTask_found db task_id current_user now u oracle t ht hown
  have htask := applyUpdateData_task t u
  have hrt : (applyUpdateData t u).task.reminder_time = v := by
    rw [htask]; simp [hsub]
  have hid : (applyUpdateData t u).task.id = t.id := by rw [htask]
  have huid : (applyUpdateData t u).task.user_id = t.user_id := by rw [htask]
  have hcont :
      (((applyUpdateData t u).changes.map Prod.fst).contains "reminder_time") = true := by
    rw [applyUpdateData_changes]
    exact (fieldDiffNew_contains_rt t _).mpr (by rw [hrt]; exact fun hh => hdiff hh.symm)
  have hmem : ∃ x, ("reminder_time", x) ∈ (applyUpdateData t u).changes := by
    simpa using hcont
  refine ⟨?_, ?_, ?_⟩
  · intro h1 h2
    subst h2
    have h1s : t.reminder_time.isSome = true := Option.ne_none_iff_isSome.mp h1
    simp [hfound, markEvents_fst, updateTaskEvents_filter_reminder, hcont, hmem, hrt,
      hid, huid, h1s]
  · intro h1 rt h2
    subst h2
    refine ⟨getNotificationChannels (applyUpdateData t u).task.reminder_config, ?_⟩
    simp [hfound, markEvents_fst, updateTaskEvents_filter_reminder, hcont, hmem, hrt,
      hid, huid, h1]
  · intro ort rt h1 h2
    subst h2
    refine ⟨getNotificationChannels (applyUpdateData t u).task.reminder_config, ?_⟩
    simp [hfound, markEvents_fst, updateTaskEvents_filter_reminder, hcont, hmem, hrt,
      hid, huid, h1]

/-- Witness for C2: clearing the concrete task's reminder attempts
exactly the `reminder_removed` cancellation. -/
theorem c2_reminder_transitions_witness :
    ((updateTask 1 clearReminderUpdate 7 [reminderTask] 5 (fun _ => true)).events.map
        Prod.fst).filter Event.isReminderEvent =
      [.reminderCancelled reminderTask.id reminderTask.user_id "reminder_removed" 5] :=
  (c2_reminder_transitions [reminderTask] 1 7 5 clearReminderUpdate (fun _ => true)
    reminderTask none (by decide) (by decide) (by decide) (by decide)).1
    (by decide) rfl

/-- C7 counterexample: resubmitting the stored title unchanged emits no
event and changes no submitted field, yet the row is still persisted
with a refreshed `updated_at` — the stored task row does change, and
persistence happens even though no field actually changed. -/
theorem c7_counterexample :
    (updateTask 1 sameTitleUpdate 7 [baseTask] 5 (fun _ => true)).events = [] ∧
    (updateTask 1 sameTitleUpdate 7 [baseTask] 5 (fun _ => true)).db =
      [{ baseTask with updated_at := 5 }] ∧
    { baseTask with updated_at := 5 } ≠ baseTask := by
  decide

/-- C7 (amended): on an update of an existing owned task in which every
submitted field equals its stored value, no `task.updated` (indeed no
event at all) is attempted and no updatable field changes; the row is
nevertheless persisted unconditionally, with only `updated_at`
refreshed. -/
theorem c7_noop_update (db : List Task) (task_id current_user now : Nat)
    (u : TaskUpdate) (oracle : Nat → Bool) (t : Task)
    (ht : dbGet db task_id = some t) (hown : t.user_id = current_user)
    (h1 : u.title.getD t.title = t.title)
    (h2 : u.description.getD t.description = t.description)
    (h3 : u.priority.getD t.priority = t.priority)
    (h4 : u.reminder_time.getD t.reminder_time = t.reminder_time)
    (h5 : u.reminder_config.getD t.reminder_config = t.reminder_config) :
    (updateTask task_id u current_user db now oracle).events = [] ∧
    (updateTask task_id u current_user db now oracle).db =
      dbPut db { t with updated_at := now } ∧
    (updateTask task_id u current_user db now oracle).status = 200 := by
  have htask : (applyUpdateData t u).task = t := by
    rw [applyUpdateData_task, h1, h2, h3, h4, h5]
  have hch : (applyUpdateData t u).changes = [] := by
    rw [applyUpdateData_changes, htask]
    simp [fieldDiffNew]
  have hfound := updateTask_found db task_id current_user now u oracle t ht hown
  refine ⟨?_, ?_, ?_⟩ <;>
    simp [hfound, htask, hch, updateTaskEvents, markEvents, markEventsFrom]

/-- Witness for C7 at the concrete no-op update. -/
theorem c7_noop_update_witness :
    (updateTask 1 sameTitleUpdate 7 [baseTask] 5 (fun _ => true)).events = [] ∧
    (updateTask 1 sameTitleUpdate 7 [baseTask] 5 (fun _ => true)).db =
      dbPut [baseTask] { baseTask with updated_at := 5 } ∧
    (updateTask 1 sameTitleUpdate 7 [baseTask] 5 (fun _ => true)).status = 200 :=
  c7_noop_update [baseTask] 1 7 5 sameTitleUpdate (fun _ => true) baseTask
    (by decide) (by decide) (by decide) (by decide) (by decide) (by decide)
    (by decide)

/-- C1 counterexample: a title-only update emits a `task.updated` event
whose key set is exactly `title`, yet the stored row also differs
pre/post on `updated_at` — so the key set is not exactly the set of
fields whose stored value differs between the pre- and post-update row. -/
theorem c1_counterexample :
    (updateTask 1 titleUpdate 7 [baseTask] 5 (fun _ => true)).events.map Prod.fst =
      [.taskUpdated 1 7 [("title", FVal.s "b")] [("title", FVal.s "a")]] ∧
    dbGet (updateTask 1 titleUpdate 7 [baseTask] 5 (fun _ => true)).db 1 =
      some { baseTask with title := "b", updated_at := 5 } ∧
    ({ baseTask with title := "b", updated_at := 5 }).updated_at ≠ baseTask.updated_at ∧
    "updated_at" ∉ ([("title", FVal.s "b")] : List (String × FVal)).map Prod.fst := by
  decide

/-- C1 (amended): for every update and toggle of an existing owned task,
the `task.updated` event's `changes` and `previous_values` carry the
same key set, and that set is exactly the client-updatable fields whose
stored value differs between the pre- and post-update row — the
always-refreshed `updated_at` column excluded; `changes` holds new
values and `previous_values` old values, and no event is emitted when no
updatable field differs. -/
theorem c1_update_event_diff :
    (∀ (db : List Task) (task_id current_user now : Nat) (u : TaskUpdate)
        (oracle : Nat → Bool) (t : Task),
      dbGet db task_id = some t → t.user_id = current_user →
      ∃ t2, dbGet (updateTask task_id u current_user db now oracle).db task_id = some t2 ∧
        ((updateTask task_id u current_user db now oracle).events.map Prod.fst).filter
            Event.isTaskUpdated =
          (if fieldDiffNew t t2 = [] then []
           else [.taskUpdated t.id t.user_id (fieldDiffNew t t2) (fieldDiffOld t t2)]) ∧
        (fieldDiffNew t t2).map Prod.fst = (fieldDiffOld t t2).map Prod.fst) ∧
    (∀ (db : List Task) (task_id current_user now : Nat) (oracle : Nat → Bool) (t : Task),
      dbGet db task_id = some t → t.user_id = current_user →
      ∃ t2, dbGet (toggleTask task_id current_user db now oracle).db task_id = some t2 ∧
        t2 = { t with is_complete := !t.is_complete, updated_at := now } ∧
        t2.is_complete ≠ t.is_complete ∧
        (toggleTask task_id current_user db now oracle).events.map Prod.fst =
          [.taskUpdated t.id t.user_id [("is_complete", FVal.b t2.is_complete)]
            [("is_complete", FVal.b t.is_complete)]]) := by
  constructor
  · intro db task_id current_user now u oracle t ht hown
    have hfound := updateTask_found db task_id current_user now u oracle t ht hown
    have htask := applyUpdateData_task t u
    have hid : (applyUpdateData t u).task.id = t.id := by rw [htask]
    have huid : (applyUpdateData t u).task.user_id = t.user_id := by rw [htask]
    have htid : t.id = task_id := dbGet_id db task_id t ht
    refine ⟨{ (applyUpdateData t u).task with updated_at := now }, ?_, ?_, ?_⟩
    · have hT2id : ({ (applyUpdateData t u).task with updated_at := now } : Task).id =
          task_id := by
        simp [hid, htid]
      have hne : dbGet db
          ({ (applyUpdateData t u).task with updated_at := now } : Task).id ≠ none := by
        rw [hT2id]
        simp [ht]
      have hput := dbGet_dbPut db { (applyUpdateData t u).task with updated_at := now } hne
      rw [hT2id] at hput
      rw [hfound]
      exact hput
    · rw [hfound]
      simp only [markEvents_fst, updateTaskEvents_filter_taskUpdated]
      rw [applyUpdateData_changes, applyUpdateData_prev]
      rw [show fieldDiffNew t (applyUpdateData t u).task =
            fieldDiffNew t { (applyUpdateData t u).task with updated_at := now } from
          (fieldDiffNew_updated_at t _ now).symm,
        show fieldDiffOld t (applyUpdateData t u).task =
            fieldDiffOld t { (applyUpdateData t u).task with updated_at := now } from
          (fieldDiffOld_updated_at t _ now).symm]
      cases hfd : fieldDiffNew t { (applyUpdateData t u).task with updated_at := now } with
      | nil => simp
      | cons hd tl => simp [hid, huid]
    · exact fieldDiff_keys t _
  · intro db task_id current_user now oracle t ht hown
    have htid : t.id = task_id := dbGet_id db task_id t ht
    have hshape : toggleTask task_id current_user db now oracle =
        { status := 200,
          body := some { t with is_complete := !t.is_complete, updated_at := now },
          detail := none,
          db := dbPut db { t with is_complete := !t.is_complete, updated_at := now },
          events := markEvents oracle
            [.taskUpdated t.id t.user_id [("is_complete", FVal.b (!t.is_complete))]
              [("is_complete", FVal.b t.is_complete)]] } := by
      simp [toggleTask, ht, hown]
    refine ⟨{ t with is_complete := !t.is_complete, updated_at := now }, ?_, rfl, ?_, ?_⟩
    · have hT2id : ({ t with is_complete := !t.is_complete, updated_at := now } : Task).id =
          task_id := by
        simp [htid]
      have hne : dbGet db
          ({ t with is_complete := !t.is_complete, updated_at := now } : Task).id ≠
            none := by
        rw [hT2id]
        simp [ht]
      have hput := dbGet_dbPut db { t with is_complete := !t.is_complete, updated_at := now }
        hne
      rw [hshape, ← htid]
      exact hput
    · simp
    · rw [hshape]
      simp [markEvents_fst]

/-- Witness for C1 at the concrete title-only update. -/
theorem c1_update_event_diff_witness :
    ∃ t2, dbGet (updateTask 1 titleUpdate 7 [baseTask] 5 (fun _ => true)).db 1 =
        some t2 ∧
      ((updateTask 1 titleUpdate 7 [baseTask] 5 (fun _ => true)).events.map
          Prod.fst).filter Event.isTaskUpdated =
        (if fieldDiffNew baseTask t2 = [] then []
         else [.taskUpdated baseTask.id baseTask.user_id (fieldDiffNew baseTask t2)
            (fieldDiffOld baseTask t2)]) ∧
      (fieldDiffNew baseTask t2).map Prod.fst = (fieldDiffOld baseTask t2).map Prod.fst :=
  c1_update_event_diff.1 [baseTask] 1 7 5 titleUpdate (fun _ => true) baseTask
    (by decide) (by decide)

/-- C3 counterexample: updating only the title of a task that has a
reminder leaves the persisted `reminder_time` non-null, yet no
reminder-domain event (in particular no `reminder.scheduled`) is
attempted in that request. -/
theorem c3_counterexample :
    dbGet (updateTask 1 titleUpdate 7 [reminderTask] 5 (fun _ => true)).db 1 =
      some { reminderTask with title := "b", updated_at := 5 } ∧
    ({ reminderTask with title := "b", updated_at := 5 }).reminder_time = some 10 ∧
    ((updateTask 1 titleUpdate 7 [reminderTask] 5 (fun _ => true)).events.map
        Prod.fst).filter Event.isReminderEvent = [] := by
  decide

/-- C3 (amended): a create whose `reminder_time` is non-null attempts
exactly one `reminder.scheduled` event carrying that time and the
channels read from the config (default `["email"]` when the config is
absent); an update attempts one exactly when `reminder_time` is among
the changed fields and the new value is non-null, carrying the persisted
time and the channels of the persisted config. -/
theorem c3_reminder_scheduling :
    (∀ (current_user : Nat) (cdata : TaskCreate) (db : List Task) (now newId : Nat)
        (oracle : Nat → Bool) (rt : Nat),
      cdata.reminder_time = some rt →
      ((createTask current_user cdata db now newId oracle).events.map Prod.fst).filter
          Event.isReminderEvent =
        [.reminderScheduled newId current_user rt
          (getNotificationChannels cdata.reminder_config)] ∧
      (cdata.reminder_config = none →
        getNotificationChannels cdata.reminder_config = ["email"])) ∧
    (∀ (db : List Task) (task_id current_user now : Nat) (u : TaskUpdate)
        (oracle : Nat → Bool) (t : Task) (rt : Nat),
      dbGet db task_id = some t → t.user_id = current_user →
      u.reminder_time = some (some rt) → some rt ≠ t.reminder_time →
      ∃ t2, dbGet (updateTask task_id u current_user db now oracle).db task_id = some t2 ∧
        t2.reminder_time = some rt ∧
        ((updateTask task_id u current_user db now oracle).events.map Prod.fst).filter
            Event.isReminderEvent =
          [.reminderScheduled t.id t.user_id rt
            (getNotificationChannels t2.reminder_config)]) := by
  constructor
  · intro current_user cdata db now newId oracle rt hrt
    constructor
    · simp [createTask, hrt, markEvents_fst, Event.isReminderEvent]
    · intro h0
      simp [h0, getNotificationChannels]
  · intro db task_id current_user now u oracle t rt ht hown hsub hdiff
    have hfound := updateTask_found db task_id current_user now u oracle t ht hown
    have htask := applyUpdateData_task t u
    have hrt2 : (applyUpdateData t u).task.reminder_time = some rt := by
      rw [htask]; simp [hsub]
    have hid : (applyUpdateData t u).task.id = t.id := by rw [htask]
    have huid : (applyUpdateData t u).task.user_id = t.user_id := by rw [htask]
    have htid : t.id = task_id := dbGet_id db task_id t ht
    have hcont :
        (((applyUpdateData t u).changes.map Prod.fst).contains "reminder_time") = true := by
      rw [applyUpdateData_changes]
      exact (fieldDiffNew_contains_rt t _).mpr (by rw [hrt2]; exact fun hh => hdiff hh.symm)
    have hmem : ∃ x, ("reminder_time", x) ∈ (applyUpdateData t u).changes := by
      simpa using hcont
    refine ⟨{ (applyUpdateData t u).task with updated_at := now }, ?_, ?_, ?_⟩
    · have hne : dbGet db
          ({ (applyUpdateData t u).task with updated_at := now } : Task).id ≠ none := by
        simp only [hid, htid]
        simp [ht]
      have hput := dbGet_dbPut db { (applyUpdateData t u).task with updated_at := now } hne
      rw [hfound, ← htid]
      simpa [hid] using hput
    · simpa using hrt2
    · simp [hfound, markEvents_fst, updateTaskEvents_filter_reminder, hcont, hmem,
        hrt2, hid, huid]

/-- Witness for C3: creating a task with a reminder and no config
attempts one scheduling event with the default email channel. -/
theorem c3_reminder_scheduling_witness :
    ((createTask 7 plainReminderCreate [] 0 1 (fun _ => true)).events.map Prod.fst).filter
        Event.isReminderEvent =
      [.reminderScheduled 1 7 4 (getNotificationChannels plainReminderCreate.reminder_config)] ∧
    (plainReminderCreate.reminder_config = none →
      getNotificationChannels plainReminderCreate.reminder_config = ["email"]) :=
  c3_reminder_scheduling.1 7 plainReminderCreate [] 0 1 (fun _ => true) 4 (by decide)

end Todo
